import Mathlib

/-!
Verification of the Droidrun Portal clipboard manager (clip.py).

The Python source is shallowly embedded: pure string manipulation becomes
executable Lean functions on `List Char` / `String`; calls to external
collaborators (the adb binary, the requests library, json.loads) are
modelled by an environment record `ClipEnv` that supplies their observable
outcomes, and every embedded operation additionally returns the list of
external calls it performed (its trace).  Exceptions of the Python runtime
are modelled with `Except`.
-/

namespace DroidrunPortal

/-- The single-quote character, written by code point to keep source clean. -/
def squote : Char := Char.ofNat 39

/-- The backslash character. -/
def bslash : Char := Char.ofNat 92

/-- The newline character. -/
def nlChar : Char := Char.ofNat 10

/-- One-character string holding a single quote. -/
def squoteStr : String := String.mk [squote]

/-- Python `old in s` substring containment on character lists. -/
def containsSub (pat : List Char) : List Char → Bool
  | [] => pat.isEmpty
  | c :: cs => pat.isPrefixOf (c :: cs) || containsSub pat cs

/-- Everything after the first occurrence of `pat`,
as in Python `s.split(pat, 1)[1]` (meaningful when `pat` occurs in the list). -/
def afterFirst (pat : List Char) : List Char → List Char
  | [] => []
  | c :: cs => if pat.isPrefixOf (c :: cs) then List.drop (pat.length - 1) cs else afterFirst pat cs

/-- Python `str.replace(old, new)`: scan left to right, replacing each
non-overlapping occurrence of `old` by `new`. -/
def pyReplace (old new : List Char) : List Char → List Char
  | [] => []
  | c :: cs =>
    if 0 < old.length ∧ old.isPrefixOf (c :: cs) then
      new ++ pyReplace old new (List.drop (old.length - 1) cs)
    else
      c :: pyReplace old new cs
termination_by l => l.length
decreasing_by
  · simp [List.length_drop]
    omega
  · simp

/-- Map a character-to-fragment function across a list and concatenate
(the character-wise reading of a global single-character replacement). -/
def charExpand (f : Char → List Char) : List Char → List Char
  | [] => []
  | c :: cs => f c ++ charExpand f cs

/-- Python whitespace test for `str.strip` (ASCII whitespace). -/
def isPySpace (c : Char) : Bool :=
  c == Char.ofNat 32 || c == Char.ofNat 9 || c == nlChar ||
  c == Char.ofNat 13 || c == Char.ofNat 11 || c == Char.ofNat 12

/-- Python `str.strip()`: remove leading and trailing whitespace. -/
def pyStrip (l : List Char) : List Char :=
  ((l.dropWhile isPySpace).reverse.dropWhile isPySpace).reverse

/-- Split a character list on a separator character,
as in Python `s.split(sep)` for a one-character separator. -/
def splitOnChar (sep : Char) : List Char → List (List Char)
  | [] => [[]]
  | c :: cs =>
    if c = sep then
      [] :: splitOnChar sep cs
    else
      match splitOnChar sep cs with
      | [] => [[c]]
      | h :: t => (c :: h) :: t

/-- Python `s.lower()` restricted to the ASCII range
(sufficient for locating the ASCII substring used by the code). -/
def pyLower (l : List Char) : List Char := l.map Char.toLower

/-- String wrapper for `containsSub`. -/
def containsSubS (pat s : String) : Bool := containsSub pat.data s.data

/-- String wrapper for `pyLower`. -/
def pyLowerS (s : String) : String := String.mk (pyLower s.data)

/-- String wrapper for `pyStrip`. -/
def pyStripS (s : String) : String := String.mk (pyStrip s.data)

/-- Python `stdout.split(nl)` as a list of line strings. -/
def splitLinesS (s : String) : List String := (splitOnChar nlChar s.data).map String.mk

/-- The escaping performed by `DroidrunClipboard._set_adb` (clip.py line 181):
`text.replace(bslash, bslash bslash).replace(quote, quote bslash quote quote)`. -/
def escapeShellText (text : String) : String :=
  String.mk (pyReplace [squote] [squote, bslash, squote, squote]
    (pyReplace [bslash] [bslash, bslash] text.data))

/-- The constant part of the content insert command built at clip.py line 184,
up to and including the opening quote of the `text:s:` binding. -/
def cmdPrefix : String :=
  "content insert --uri content://com.droidrun.portal/clipboard/set --bind " ++
    squoteStr ++ "text:s:"

/-- The full shell command string built by `_set_adb` (clip.py line 184). -/
def buildAdbSetCmd (text : String) : String :=
  cmdPrefix ++ escapeShellText text ++ squoteStr

/-- The escaping as the specification words it: first double every backslash,
then replace each single quote by the four-character sequence
quote backslash quote quote, character by character, in that order. -/
def escapeSpec (l : List Char) : List Char :=
  charExpand (fun c => if c = squote then [squote, bslash, squote, squote] else [c])
    (charExpand (fun c => if c = bslash then [bslash, bslash] else [c]) l)

/-- JSON values, as produced by the json decoding of the Python standard
library and of the requests library (both are external collaborators; their
parser is modelled by the oracle field `jsonLoads` of the environment). -/
inductive JVal where
  | null
  | bool (b : Bool)
  | num (n : Int)
  | str (s : String)
  | arr (xs : List JVal)
  | obj (fields : List (String × JVal))

/-- Python exceptions that the embedded code can observe from its
collaborators, with just enough structure for the error messages. -/
inductive PyErr where
  | httpError (code : Nat)
  | requestExc
  | jsonDecode
  | attrError

/-- Rendering of a collaborator exception into the message text interpolated
by the f-strings of the source. -/
def PyErr.render : PyErr → String
  | .httpError code => "HTTP error " ++ toString code
  | .requestExc => "request exception"
  | .jsonDecode => "JSON decode error"
  | .attrError => "attribute error"

/-- The JSON request body posted by `_set_http` (clip.py lines 130 to 134). -/
structure PostRequest where
  path : String
  body : JVal
  contentType : String

/-- External calls the program can perform; each embedded operation reports
the list of calls it made, in order. -/
inductive ExtCall where
  | adbForward (port : Nat)
  | httpPing (port : Nat)
  | httpGetReq (port : Nat)
  | httpPostReq (port : Nat) (r : PostRequest)
  | adbQuery (uri : String)
  | adbShellCmd (cmd : String)

/-- True exactly for the clipboard-transport HTTP requests
(the availability ping is a probe call, not a transport request). -/
def ExtCall.isHttpTransport : ExtCall → Bool
  | .httpGetReq _ => true
  | .httpPostReq _ _ => true
  | _ => false

/-- True for every HTTP call, the availability ping included. -/
def ExtCall.isHttpCall : ExtCall → Bool
  | .httpPing _ => true
  | .httpGetReq _ => true
  | .httpPostReq _ _ => true
  | _ => false

/-- Observable outcomes of the external collaborators for one run.
`ping`, `httpGetResp` and `httpPostResp` carry `none` when the
corresponding requests call raises (timeout, connection refused, and so on);
otherwise they carry the status code and, for the transport calls, the raw
response body.  `httpPostResp` may depend on the posted text.
`jsonLoads` is the JSON parser oracle; `adbShell` gives the exit code of
`adb shell <cmd>` for the insert command. -/
structure ClipEnv where
  forwardExit : Nat
  ping : Option Nat
  httpGetResp : Option (Nat × String)
  httpPostResp : String → Option (Nat × String)
  adbQueryRc : Nat
  adbQueryStdout : String
  adbQueryStderr : String
  adbShell : String → Nat
  jsonLoads : String → Except Unit JVal

/-- Is an optional JSON value the string success, as in the Python
comparison `obj.get(status) == success`. -/
def isSuccessStr : Option JVal → Bool
  | some (JVal.str s) => s == "success"
  | _ => false

/-- Python `obj.get(key, default)` on a decoded JSON object. -/
def jsonGetD (fields : List (String × JVal)) (key : String) (d : JVal) : JVal :=
  (fields.lookup key).getD d

/-- The content provider uri queried by `_get_adb` (clip.py line 147). -/
def adbGetUri : String := "content://com.droidrun.portal/clipboard/get"

/-- The marker searched for in each stdout line by `_get_adb`
(clip.py line 156). -/
def resultMarker : String := "result="

/-- Does a stdout line contain the `result=` marker (clip.py line 156). -/
def lineHasMarker (l : String) : Bool := containsSub resultMarker.data l.data

/-- The text after the first `result=` marker of a line (clip.py line 157). -/
def afterMarker (l : String) : String := String.mk (afterFirst resultMarker.data l.data)

/-- The loop of `_get_adb` over the stdout lines (clip.py lines 155 to 165):
for each line containing the marker, decode the JSON after the marker
(a decode failure raises, a non-object makes the attribute access raise);
on the first object whose status is success, return its data field with
default empty string; if no line yields success, fall through to none. -/
def scanResultLines (jl : String → Except Unit JVal) : List String → Except PyErr (Option JVal)
  | [] => .ok none
  | l :: ls =>
    if lineHasMarker l then
      match jl (afterMarker l) with
      | .error _ => .error .jsonDecode
      | .ok (JVal.obj fields) =>
        if isSuccessStr (fields.lookup "status") then
          .ok (some (jsonGetD fields "data" (JVal.str "")))
        else
          scanResultLines jl ls
      | .ok _ => .error .attrError
    else
      scanResultLines jl ls

/-- The stdout lines examined by `_get_adb`:
`result.stdout.strip().split(nl)` (clip.py line 155). -/
def adbLines (env : ClipEnv) : List String := splitLinesS (pyStripS env.adbQueryStdout)

/-- `DroidrunClipboard._get_adb` (clip.py lines 142 to 167): run the content
query; a non-zero exit raises, which the enclosing handler wraps; otherwise
scan the stdout lines, wrapping any exception of the scan the same way. -/
def getAdb (env : ClipEnv) : Except String (Option JVal) × List ExtCall :=
  let trace := [ExtCall.adbQuery adbGetUri]
  if env.adbQueryRc ≠ 0 then
    (.error ("ADB GET failed: ADB command failed: " ++ env.adbQueryStderr), trace)
  else
    match scanResultLines env.jsonLoads (adbLines env) with
    | .ok r => (.ok r, trace)
    | .error e => (.error ("ADB GET failed: " ++ e.render), trace)

/-- `DroidrunClipboard._set_adb` (clip.py lines 169 to 196): build the insert
command with the escaped text and report success exactly when the external
process exits with code zero. -/
def setAdb (env : ClipEnv) (text : String) : Except String Bool × List ExtCall :=
  let cmd := buildAdbSetCmd text
  (.ok (env.adbShell cmd == 0), [ExtCall.adbShellCmd cmd])

/-- `requests.Response.raise_for_status` of the requests library: raises an
HTTPError exactly for status codes 400 to 599. -/
def raiseForStatus (code : Nat) : Except PyErr Unit :=
  if 400 ≤ code ∧ code < 600 then .error (.httpError code) else .ok ()

/-- `DroidrunClipboard._get_http` (clip.py lines 104 to 118): issue the
transport GET, raise for 4xx and 5xx, decode the JSON body, return the data
field on success status and none otherwise; every exception is wrapped with
the method-qualified prefix. -/
def getHttp (env : ClipEnv) (port : Nat) : Except String (Option JVal) × List ExtCall :=
  let trace := [ExtCall.httpGetReq port]
  match env.httpGetResp with
  | none => (.error ("HTTP GET failed: " ++ PyErr.render .requestExc), trace)
  | some (code, body) =>
    match raiseForStatus code with
    | .error e => (.error ("HTTP GET failed: " ++ e.render), trace)
    | .ok _ =>
      match env.jsonLoads body with
      | .error _ => (.error ("HTTP GET failed: " ++ PyErr.render .jsonDecode), trace)
      | .ok (JVal.obj fields) =>
        if isSuccessStr (fields.lookup "status") then
          (.ok (some (jsonGetD fields "data" (JVal.str ""))), trace)
        else
          (.ok none, trace)
      | .ok _ => (.error ("HTTP GET failed: " ++ PyErr.render .attrError), trace)

/-- The request value posted by `_set_http` (clip.py lines 130 to 134). -/
def postRequest (text : String) : PostRequest :=
  { path := "/clipboard/set"
    body := JVal.obj [("text", JVal.str text)]
    contentType := "application/json" }

/-- `DroidrunClipboard._set_http` (clip.py lines 120 to 140): post the text,
raise for 4xx and 5xx, then report success exactly when the lowercased raw
body contains the substring success; exceptions are wrapped with the
method-qualified prefix. -/
def setHttp (env : ClipEnv) (port : Nat) (text : String) : Except String Bool × List ExtCall :=
  let trace := [ExtCall.httpPostReq port (postRequest text)]
  match env.httpPostResp text with
  | none => (.error ("HTTP SET failed: " ++ PyErr.render .requestExc), trace)
  | some (code, body) =>
    match raiseForStatus code with
    | .error e => (.error ("HTTP SET failed: " ++ e.render), trace)
    | .ok _ => (.ok (containsSubS "success" (pyLowerS body)), trace)

/-- The transport mode of the facade, the constructor argument `method`. -/
inductive Method where
  | auto
  | http
  | adb
deriving DecidableEq

/-- The mutable state of one `DroidrunClipboard` instance: the configured
method and port, plus the memoized availability flag `_http_available`
(`none` models the Python `None`, the unknown state). -/
structure Clip where
  method : Method
  port : Nat
  httpAvailable : Option Bool

/-- `DroidrunClipboard.__init__` (clip.py lines 40 to 50). -/
def clipInit (method : Method) (port : Nat) : Clip :=
  { method := method, port := port, httpAvailable := none }

/-- `DroidrunClipboard._setup_port_forwarding` (clip.py lines 52 to 59):
run the bridge forward command and report whether it exited with zero. -/
def setupPortForwarding (env : ClipEnv) (port : Nat) : Bool × List ExtCall :=
  (env.forwardExit == 0, [ExtCall.adbForward port])

/-- `DroidrunClipboard._is_http_available` (clip.py lines 61 to 74): return
the memoized flag when set; otherwise attempt the port forward (its result is
discarded), send the ping with a one second timeout, record availability as
status exactly 200, and record unavailable when anything raises.  The outcome
of the bridge forward command is modelled as an exit code. -/
def isHttpAvailable (env : ClipEnv) (c : Clip) : Bool × Clip × List ExtCall :=
  match c.httpAvailable with
  | some b => (b, c, [])
  | none =>
    let fwd := setupPortForwarding env c.port
    let trace := fwd.2 ++ [ExtCall.httpPing c.port]
    match env.ping with
    | some code => (code == 200, { c with httpAvailable := some (code == 200) }, trace)
    | none => (false, { c with httpAvailable := some false }, trace)

/-- The timeout, in seconds, passed to the ping request (clip.py line 69). -/
def pingTimeoutSeconds : Nat := 1

/-- `DroidrunClipboard.get` (clip.py lines 76 to 86): delegate to the HTTP
adapter when the method is http, or when it is auto and the probe reports
available (short-circuit: the probe only runs in auto mode); otherwise
delegate to the shell adapter. -/
def facadeGet (env : ClipEnv) (c : Clip) : Except String (Option JVal) × Clip × List ExtCall :=
  if c.method = Method.http then
    let r := getHttp env c.port
    (r.1, c, r.2)
  else if c.method = Method.auto then
    let p := isHttpAvailable env c
    if p.1 then
      let r := getHttp env p.2.1.port
      (r.1, p.2.1, p.2.2 ++ r.2)
    else
      let r := getAdb env
      (r.1, p.2.1, p.2.2 ++ r.2)
  else
    let r := getAdb env
    (r.1, c, r.2)

/-- `DroidrunClipboard.set` (clip.py lines 88 to 102): same dispatch as
`get`, delegating to `_set_http` or `_set_adb`. -/
def facadeSet (env : ClipEnv) (c : Clip) (text : String) :
    Except String Bool × Clip × List ExtCall :=
  if c.method = Method.http then
    let r := setHttp env c.port text
    (r.1, c, r.2)
  else if c.method = Method.auto then
    let p := isHttpAvailable env c
    if p.1 then
      let r := setHttp env p.2.1.port text
      (r.1, p.2.1, p.2.2 ++ r.2)
    else
      let r := setAdb env text
      (r.1, p.2.1, p.2.2 ++ r.2)
  else
    let r := setAdb env text
    (r.1, c, r.2)

/-- Modelled from the spec: the argparse help text printed by
`parser.print_help()` is library output, abbreviated here to one line. -/
def helpText : String := "usage"

/-- The message printed when the set action lacks its text argument
(clip.py line 438). -/
def missingTextMsg : String :=
  "Error: Text argument required for " ++ squoteStr ++ "set" ++ squoteStr ++ " action"

/-- The confirmation printed by a successful CLI set (clip.py line 444). -/
def setSuccessMsg (n : Nat) : String :=
  "✓ Clipboard set successfully (" ++ toString n ++ " chars)"

/-- The get branch of `main` (clip.py lines 427 to 434) together with the
top-level exception handler (lines 461 to 463): given the outcome of the
facade get, produce the exit code, the stdout lines and the stderr lines. -/
def cliGet (r : Except String (Option String)) : Nat × List String × List String :=
  match r with
  | .ok (some text) => (0, [text], [])
  | .ok none => (1, [], ["(Clipboard is empty)"])
  | .error e => (1, [], ["Error: " ++ e])

/-- The set branch of `main` (clip.py lines 436 to 448) together with the
top-level exception handler: an absent text argument prints the usage error
and the help; otherwise the facade set runs on the given text and the result
decides the output and exit code. -/
def cliSet (textArg : Option String) (doSet : String → Except String Bool) :
    Nat × List String × List String :=
  match textArg with
  | none => (1, [helpText], [missingTextMsg])
  | some t =>
    match doSet t with
    | .ok true => (0, [setSuccessMsg t.length], [])
    | .ok false => (1, [], ["✗ Failed to set clipboard"])
    | .error e => (1, [], ["Error: " ++ e])

/-- A concrete environment for witnesses: every collaborator succeeds, the
adb query prints one success row, and the JSON oracle decodes it. -/
def envSuccess : ClipEnv :=
  { forwardExit := 0
    ping := some 200
    httpGetResp := some (200, "body")
    httpPostResp := fun _ => some (200, "success")
    adbQueryRc := 0
    adbQueryStdout := "Row: 0 result=payload"
    adbQueryStderr := ""
    adbShell := fun _ => 0
    jsonLoads := fun _ =>
      Except.ok (JVal.obj [("status", JVal.str "success"), ("data", JVal.str "hello")]) }

/-- A concrete environment whose HTTP responses carry status 304 (a non-2xx
status outside the 4xx and 5xx ranges) with a body decoding to a success
object. -/
def envRedirect : ClipEnv :=
  { forwardExit := 0
    ping := some 200
    httpGetResp := some (304, "cached")
    httpPostResp := fun _ => some (304, "cached")
    adbQueryRc := 0
    adbQueryStdout := ""
    adbQueryStderr := ""
    adbShell := fun _ => 0
    jsonLoads := fun _ =>
      Except.ok (JVal.obj [("status", JVal.str "success"), ("data", JVal.str "hi")]) }

theorem pyReplace_nil (old new : List Char) : pyReplace old new [] = [] := by
  simp [pyReplace]

theorem pyReplace_single (a : Char) (new : List Char) (l : List Char) :
    pyReplace [a] new l = charExpand (fun c => if c = a then new else [c]) l := by
  induction l with
  | nil => simp [pyReplace, charExpand]
  | cons c cs ih =>
    rw [pyReplace]
    by_cases h : a = c
    · subst h
      simp [List.isPrefixOf, charExpand, ih]
    · have hne : ¬ c = a := fun hc => h hc.symm
      simp [List.isPrefixOf, h, hne, charExpand, ih]

/-- C1: the shell-transport set operation escapes its input by first replacing
every backslash with two backslashes, then every single quote with the
four-character sequence quote backslash quote quote, in that order, and embeds
the escaped result inside the single-quoted `text:s:` binding of the content
insert command; for every input string this is exactly the transformation
applied. -/
theorem c1_set_adb_escape (text : String) :
    buildAdbSetCmd text = cmdPrefix ++ String.mk (escapeSpec text.data) ++ squoteStr := by
  unfold buildAdbSetCmd escapeShellText escapeSpec
  rw [pyReplace_single, pyReplace_single]

/-- C9: the CLI get action distinguishes no content from the empty string:
a `none` facade result prints the placeholder message to the error stream and
exits with code 1, while an empty-string result is printed normally to
standard output with exit code 0. -/
theorem c9_cli_get_empty_distinction :
    cliGet (Except.ok none) = (1, [], ["(Clipboard is empty)"]) ∧
    cliGet (Except.ok (some "")) = (0, [""], []) :=
  ⟨rfl, rfl⟩

/-- C10: the CLI set action accepts an explicit empty-string text argument:
passing the empty string is never treated as a missing argument (only an
absent argument produces the usage error output), the set operation is
performed with the empty string (the outcome depends only on the set result
at the empty string), and on success the confirmation reports a character
count of 0 with exit code 0. -/
theorem c10_cli_set_empty_text (f : String → Except String Bool)
    (h : f "" = Except.ok true) :
    cliSet (some "") f = (0, [setSuccessMsg 0], []) ∧
    (∀ g : String → Except String Bool, cliSet (some "") g ≠ cliSet none g) ∧
    (∀ g g₂ : String → Except String Bool, g "" = g₂ "" →
      cliSet (some "") g = cliSet (some "") g₂) := by
  refine ⟨?_, ?_, ?_⟩
  · simp [cliSet, h]
  · intro g hg
    cases hgv : g "" with
    | ok b => cases b <;> simp [cliSet, hgv, helpText] at hg
    | error e => simp [cliSet, hgv, helpText] at hg
  · intro g g₂ he
    simp only [cliSet]
    rw [he]

/-- C10 witness: with a set operation that succeeds on the empty string, the
CLI reports a zero character count and exit code 0. -/
theorem c10_cli_set_empty_text_witness :
    cliSet (some "") (fun _ => Except.ok true) = (0, [setSuccessMsg 0], []) :=
  (c10_cli_set_empty_text (fun _ => Except.ok true) rfl).1

theorem getAdb_trace (env : ClipEnv) : (getAdb env).2 = [ExtCall.adbQuery adbGetUri] := by
  unfold getAdb
  split
  · rfl
  · split <;> rfl

theorem setAdb_trace (env : ClipEnv) (t : String) :
    (setAdb env t).2 = [ExtCall.adbShellCmd (buildAdbSetCmd t)] := rfl

theorem isHttpAvailable_fresh_trace (env : ClipEnv) (c : Clip) (h : c.httpAvailable = none) :
    (isHttpAvailable env c).2.2 = [ExtCall.adbForward c.port, ExtCall.httpPing c.port] := by
  cases hp : env.ping <;> simp [isHttpAvailable, setupPortForwarding, h, hp]

theorem isHttpAvailable_cached (env : ClipEnv) (c : Clip) (b : Bool)
    (h : c.httpAvailable = some b) : isHttpAvailable env c = (b, c, []) := by
  simp [isHttpAvailable, h]

theorem isHttpAvailable_state (env : ClipEnv) (c : Clip) :
    (isHttpAvailable env c).2.1.port = c.port ∧
    (isHttpAvailable env c).2.1.method = c.method := by
  rcases hc : c.httpAvailable with _ | b <;>
    cases hp : env.ping <;> simp [isHttpAvailable, hc, hp]

theorem facadeGet_http (env : ClipEnv) (c : Clip) (hm : c.method = Method.http) :
    facadeGet env c = ((getHttp env c.port).1, c, (getHttp env c.port).2) := by
  simp [facadeGet, hm]

theorem facadeGet_adb (env : ClipEnv) (c : Clip) (hm : c.method = Method.adb) :
    facadeGet env c = ((getAdb env).1, c, (getAdb env).2) := by
  simp [facadeGet, hm]

theorem facadeGet_auto_avail (env : ClipEnv) (c : Clip) (hm : c.method = Method.auto)
    (hav : (isHttpAvailable env c).1 = true) :
    facadeGet env c = ((getHttp env (isHttpAvailable env c).2.1.port).1,
      (isHttpAvailable env c).2.1,
      (isHttpAvailable env c).2.2 ++ (getHttp env (isHttpAvailable env c).2.1.port).2) := by
  simp [facadeGet, hm, hav]

theorem facadeGet_auto_unavail (env : ClipEnv) (c : Clip) (hm : c.method = Method.auto)
    (hav : (isHttpAvailable env c).1 = false) :
    facadeGet env c = ((getAdb env).1, (isHttpAvailable env c).2.1,
      (isHttpAvailable env c).2.2 ++ (getAdb env).2) := by
  simp [facadeGet, hm, hav]

theorem facadeSet_http (env : ClipEnv) (c : Clip) (t : String) (hm : c.method = Method.http) :
    facadeSet env c t = ((setHttp env c.port t).1, c, (setHttp env c.port t).2) := by
  simp [facadeSet, hm]

theorem facadeSet_adb (env : ClipEnv) (c : Clip) (t : String) (hm : c.method = Method.adb) :
    facadeSet env c t = ((setAdb env t).1, c, (setAdb env t).2) := by
  simp [facadeSet, hm]

theorem facadeSet_auto_avail (env : ClipEnv) (c : Clip) (t : String)
    (hm : c.method = Method.auto) (hav : (isHttpAvailable env c).1 = true) :
    facadeSet env c t = ((setHttp env (isHttpAvailable env c).2.1.port t).1,
      (isHttpAvailable env c).2.1,
      (isHttpAvailable env c).2.2 ++ (setHttp env (isHttpAvailable env c).2.1.port t).2) := by
  simp [facadeSet, hm, hav]

theorem facadeSet_auto_unavail (env : ClipEnv) (c : Clip) (t : String)
    (hm : c.method = Method.auto) (hav : (isHttpAvailable env c).1 = false) :
    facadeSet env c t = ((setAdb env t).1, (isHttpAvailable env c).2.1,
      (isHttpAvailable env c).2.2 ++ (setAdb env t).2) := by
  simp [facadeSet, hm, hav]

/-- C6: with the availability flag still unknown, the probe reports HTTP as
available exactly when the ping returns status 200; a raised ping (modelled
by a `none` status) yields unavailable; the ping timeout is one second. -/
theorem c6_probe_availability (env : ClipEnv) (c : Clip) (h : c.httpAvailable = none) :
    ((isHttpAvailable env c).1 = true ↔ env.ping = some 200) ∧
    (env.ping = none → (isHttpAvailable env c).1 = false) ∧
    pingTimeoutSeconds = 1 := by
  cases hp : env.ping with
  | none => simp [isHttpAvailable, h, hp, pingTimeoutSeconds]
  | some code => simp [isHttpAvailable, h, hp, pingTimeoutSeconds]

/-- C6 witness: on an environment whose ping answers 200 and a freshly
constructed facade, the probe reports available. -/
theorem c6_probe_availability_witness :
    (isHttpAvailable envSuccess (clipInit Method.auto 8080)).1 = true ↔
      envSuccess.ping = some 200 :=
  (c6_probe_availability envSuccess (clipInit Method.auto 8080) rfl).1

/-- C7: whatever the exit code of the bridge forward command, the probe still
performs the ping request after the forward attempt, and its whole outcome is
unchanged by the forward exit code. -/
theorem c7_forward_failure_nonfatal (env : ClipEnv) (c : Clip)
    (h : c.httpAvailable = none) :
    ExtCall.httpPing c.port ∈ (isHttpAvailable env c).2.2 ∧
    (isHttpAvailable env c).2.2 = [ExtCall.adbForward c.port, ExtCall.httpPing c.port] ∧
    (∀ n, isHttpAvailable { env with forwardExit := n } c = isHttpAvailable env c) := by
  cases hp : env.ping <;>
    simp [isHttpAvailable, setupPortForwarding, h, hp]

/-- C7 witness: on a fresh facade the probe trace is the forward attempt
followed by the ping. -/
theorem c7_forward_failure_nonfatal_witness :
    (isHttpAvailable envSuccess (clipInit Method.auto 8080)).2.2 =
      [ExtCall.adbForward 8080, ExtCall.httpPing 8080] :=
  (c7_forward_failure_nonfatal envSuccess (clipInit Method.auto 8080) rfl).2.1

/-- C8: the availability flag starts unknown, the probe sets it to the
concrete reported value on first use, a set flag is returned as is with no
external calls and no state change whatever the environment, and neither
facade operation ever resets a set flag. -/
theorem c8_availability_memoized (env env₂ : ClipEnv) (c : Clip) (b : Bool)
    (m : Method) (p : Nat) (t : String) :
    (clipInit m p).httpAvailable = none ∧
    (c.httpAvailable = none →
      (isHttpAvailable env c).2.1.httpAvailable = some (isHttpAvailable env c).1) ∧
    (c.httpAvailable = some b →
      isHttpAvailable env c = (b, c, []) ∧ isHttpAvailable env₂ c = (b, c, [])) ∧
    (c.httpAvailable = some b →
      (facadeGet env c).2.1.httpAvailable = some b ∧
      (facadeSet env c t).2.1.httpAvailable = some b) := by
  refine ⟨rfl, ?_, ?_, ?_⟩
  · intro h
    cases hp : env.ping <;> simp [isHttpAvailable, h, hp]
  · intro h
    exact ⟨by simp [isHttpAvailable, h], by simp [isHttpAvailable, h]⟩
  · intro h
    rcases hm : c.method with _ | _ | _
    · have hc := isHttpAvailable_cached env c b h
      cases b
      · rw [facadeGet_auto_unavail env c hm (by rw [hc]),
          facadeSet_auto_unavail env c t hm (by rw [hc])]
        simp [hc, h]
      · rw [facadeGet_auto_avail env c hm (by rw [hc]),
          facadeSet_auto_avail env c t hm (by rw [hc])]
        simp [hc, h]
    · rw [facadeGet_http env c hm, facadeSet_http env c t hm]
      exact ⟨h, h⟩
    · rw [facadeGet_adb env c hm, facadeSet_adb env c t hm]
      exact ⟨h, h⟩

/-- C8 witness: a facade whose flag is already set answers from the cache
with no external call and no state change. -/
theorem c8_availability_memoized_witness :
    isHttpAvailable envSuccess
        { method := Method.auto, port := 8080, httpAvailable := some true } =
      (true, { method := Method.auto, port := 8080, httpAvailable := some true }, []) :=
  ((c8_availability_memoized envSuccess envSuccess
      { method := Method.auto, port := 8080, httpAvailable := some true }
      true Method.auto 8080 "").2.2.1 rfl).1

/-- C2: with method http the facade delegates get and set to the HTTP
adapter; with method auto and an available probe it delegates to the HTTP
adapter; with method adb it delegates to the shell adapter and performs no
HTTP call at all (not even the ping); with method auto and an unavailable
probe it delegates to the shell adapter and performs no HTTP transport
request. -/
theorem c2_facade_dispatch (env : ClipEnv) (c : Clip) (t : String) :
    (c.method = Method.http →
      facadeGet env c = ((getHttp env c.port).1, c, (getHttp env c.port).2) ∧
      facadeSet env c t = ((setHttp env c.port t).1, c, (setHttp env c.port t).2)) ∧
    (c.method = Method.auto → (isHttpAvailable env c).1 = true →
      (facadeGet env c).1 = (getHttp env c.port).1 ∧
      (facadeSet env c t).1 = (setHttp env c.port t).1) ∧
    (c.method = Method.adb →
      facadeGet env c = ((getAdb env).1, c, (getAdb env).2) ∧
      facadeSet env c t = ((setAdb env t).1, c, (setAdb env t).2) ∧
      (∀ x ∈ (facadeGet env c).2.2, x.isHttpCall = false) ∧
      (∀ x ∈ (facadeSet env c t).2.2, x.isHttpCall = false)) ∧
    (c.method = Method.auto → (isHttpAvailable env c).1 = false →
      (facadeGet env c).1 = (getAdb env).1 ∧
      (facadeSet env c t).1 = (setAdb env t).1 ∧
      (∀ x ∈ (facadeGet env c).2.2, x.isHttpTransport = false) ∧
      (∀ x ∈ (facadeSet env c t).2.2, x.isHttpTransport = false)) := by
  refine ⟨?_, ?_, ?_, ?_⟩
  · intro hm
    exact ⟨facadeGet_http env c hm, facadeSet_http env c t hm⟩
  · intro hm hav
    constructor
    · rw [facadeGet_auto_avail env c hm hav, (isHttpAvailable_state env c).1]
    · rw [facadeSet_auto_avail env c t hm hav, (isHttpAvailable_state env c).1]
  · intro hm
    refine ⟨facadeGet_adb env c hm, facadeSet_adb env c t hm, ?_, ?_⟩
    · intro x hx
      rw [facadeGet_adb env c hm] at hx
      simp [getAdb_trace] at hx
      subst hx
      rfl
    · intro x hx
      rw [facadeSet_adb env c t hm] at hx
      simp [setAdb_trace] at hx
      subst hx
      rfl
  · intro hm hav
    refine ⟨?_, ?_, ?_, ?_⟩
    · rw [facadeGet_auto_unavail env c hm hav]
    · rw [facadeSet_auto_unavail env c t hm hav]
    · intro x hx
      rw [facadeGet_auto_unavail env c hm hav] at hx
      simp [getAdb_trace] at hx
      rcases hx with hx | hx
      · rcases hc : c.httpAvailable with _ | b2
        · rw [isHttpAvailable_fresh_trace env c hc] at hx
          simp at hx
          rcases hx with hx | hx <;> subst hx <;> rfl
        · rw [isHttpAvailable_cached env c b2 hc] at hx
          simp at hx
      · subst hx
        rfl
    · intro x hx
      rw [facadeSet_auto_unavail env c t hm hav] at hx
      simp [setAdb_trace] at hx
      rcases hx with hx | hx
      · rcases hc : c.httpAvailable with _ | b2
        · rw [isHttpAvailable_fresh_trace env c hc] at hx
          simp at hx
          rcases hx with hx | hx <;> subst hx <;> rfl
        · rw [isHttpAvailable_cached env c b2 hc] at hx
          simp at hx
      · subst hx
        rfl

/-- C2 witness: with method adb the facade runs exactly the shell get. -/
theorem c2_facade_dispatch_witness :
    facadeGet envSuccess (clipInit Method.adb 8080) =
      ((getAdb envSuccess).1, clipInit Method.adb 8080, (getAdb envSuccess).2) :=
  ((c2_facade_dispatch envSuccess (clipInit Method.adb 8080) "x").2.2.1 rfl).1

theorem scanResultLines_skip (jl : String → Except Unit JVal) (l : String) (ls : List String)
    (h : lineHasMarker l = false ∨
      ∃ fields, jl (afterMarker l) = Except.ok (JVal.obj fields) ∧
        isSuccessStr (fields.lookup "status") = false) :
    scanResultLines jl (l :: ls) = scanResultLines jl ls := by
  rcases h with hm | ⟨fs, hjl, hss⟩
  · simp [scanResultLines, hm]
  · by_cases hm : lineHasMarker l
    · simp [scanResultLines, hm, hjl, hss]
    · simp [scanResultLines, hm]

theorem scanResultLines_none (jl : String → Except Unit JVal) (ls : List String)
    (h : ∀ l ∈ ls, lineHasMarker l = false ∨
      ∃ fields, jl (afterMarker l) = Except.ok (JVal.obj fields) ∧
        isSuccessStr (fields.lookup "status") = false) :
    scanResultLines jl ls = Except.ok none := by
  induction ls with
  | nil => rfl
  | cons l ls ih =>
    rw [scanResultLines_skip jl l ls (h l (List.mem_cons_self l ls))]
    exact ih (fun x hx => h x (List.mem_cons_of_mem l hx))

theorem scanResultLines_success (jl : String → Except Unit JVal) (pre : List String)
    (l : String) (post : List String) (fields : List (String × JVal))
    (hpre : ∀ x ∈ pre, lineHasMarker x = false ∨
      ∃ fs, jl (afterMarker x) = Except.ok (JVal.obj fs) ∧
        isSuccessStr (fs.lookup "status") = false)
    (hm : lineHasMarker l = true)
    (hjl : jl (afterMarker l) = Except.ok (JVal.obj fields))
    (hss : isSuccessStr (fields.lookup "status") = true) :
    scanResultLines jl (pre ++ l :: post) =
      Except.ok (some (jsonGetD fields "data" (JVal.str ""))) := by
  induction pre with
  | nil => simp [scanResultLines, hm, hjl, hss]
  | cons x xs ih =>
    rw [List.cons_append, scanResultLines_skip jl x _ (hpre x (List.mem_cons_self x xs))]
    exact ih (fun y hy => hpre y (List.mem_cons_of_mem x hy))

/-- C3: the shell-transport get returns the decoded data field verbatim when
a marker line decodes with success status (every earlier marker line decoding
to a non-success object); it returns the non-error no-content result `none`
when every line lacks the marker or every decoded object has a non-success
status; and a non-zero exit of the external query surfaces as a wrapped
failure, never as the no-content result. -/
theorem c3_get_adb_results (env : ClipEnv) :
    (env.adbQueryRc ≠ 0 →
      (getAdb env).1 =
        Except.error ("ADB GET failed: ADB command failed: " ++ env.adbQueryStderr) ∧
      ∀ r : Option JVal, (getAdb env).1 ≠ Except.ok r) ∧
    (env.adbQueryRc = 0 →
      (∀ l ∈ adbLines env, lineHasMarker l = false ∨
        ∃ fields, env.jsonLoads (afterMarker l) = Except.ok (JVal.obj fields) ∧
          isSuccessStr (fields.lookup "status") = false) →
      (getAdb env).1 = Except.ok none) ∧
    (env.adbQueryRc = 0 →
      ∀ pre l post fields, adbLines env = pre ++ l :: post →
        (∀ x ∈ pre, lineHasMarker x = false ∨
          ∃ fs, env.jsonLoads (afterMarker x) = Except.ok (JVal.obj fs) ∧
            isSuccessStr (fs.lookup "status") = false) →
        lineHasMarker l = true →
        env.jsonLoads (afterMarker l) = Except.ok (JVal.obj fields) →
        isSuccessStr (fields.lookup "status") = true →
        (getAdb env).1 = Except.ok (some (jsonGetD fields "data" (JVal.str "")))) := by
  refine ⟨?_, ?_, ?_⟩
  · intro h
    refine ⟨by simp [getAdb, h], ?_⟩
    intro r
    simp [getAdb, h]
  · intro h0 hall
    simp [getAdb, h0, scanResultLines_none env.jsonLoads (adbLines env) hall]
  · intro h0 pre l post fields hsplit hpre hm hjl hss
    have hscan := scanResultLines_success env.jsonLoads pre l post fields hpre hm hjl hss
    rw [← hsplit] at hscan
    simp [getAdb, h0, hscan]

/-- C3 witness: on an environment whose query prints one success row, the
shell get returns the decoded data field. -/
theorem c3_get_adb_results_witness :
    (getAdb envSuccess).1 = Except.ok (some (JVal.str "hello")) := by
  have h := (c3_get_adb_results envSuccess).2.2 rfl [] "Row: 0 result=payload" []
    [("status", JVal.str "success"), ("data", JVal.str "hello")]
    (by decide) (by intro x hx; simp at hx) (by decide) rfl (by decide)
  exact h

/-- C4 counterexample: a response with status 304 is not 2xx, yet the
HTTP-transport set does not signal failure there: it returns the plain
boolean result of the substring check, refuting the claim as stated. -/
theorem c4_set_http_counterexample :
    ¬ (200 ≤ 304 ∧ 304 < 300) ∧ (setHttp envRedirect 8080 "x").1 = Except.ok false :=
  ⟨by decide, rfl⟩

/-- C4 amended: the HTTP-transport set posts the text as a JSON body to the
set path; a request exception or a response with a 4xx or 5xx status signals
a wrapped failure; every other response (any status outside 400 to 599,
2xx or not) reports success exactly when the raw body contains the substring
success case-insensitively. -/
theorem c4_set_http_amended (env : ClipEnv) (p : Nat) (t : String)
    (code : Nat) (body : String) :
    ((setHttp env p t).2 = [ExtCall.httpPostReq p (postRequest t)] ∧
      postRequest t =
        PostRequest.mk "/clipboard/set" (JVal.obj [("text", JVal.str t)])
          "application/json") ∧
    (env.httpPostResp t = none →
      (setHttp env p t).1 =
        Except.error ("HTTP SET failed: " ++ PyErr.render PyErr.requestExc)) ∧
    (env.httpPostResp t = some (code, body) →
      (400 ≤ code ∧ code < 600 →
        (setHttp env p t).1 =
          Except.error ("HTTP SET failed: " ++ PyErr.render (PyErr.httpError code))) ∧
      (¬ (400 ≤ code ∧ code < 600) →
        ((setHttp env p t).1 = Except.ok true ↔
          containsSubS "success" (pyLowerS body) = true))) := by
  refine ⟨⟨?_, rfl⟩, ?_, ?_⟩
  · cases h : env.httpPostResp t with
    | none => simp [setHttp, h]
    | some cb =>
      rcases cb with ⟨code₂, body₂⟩
      cases hr : raiseForStatus code₂ with
      | error e => simp [setHttp, h, hr]
      | ok u => simp [setHttp, h, hr]
  · intro h
    simp [setHttp, h]
  · intro h
    constructor
    · intro hc
      simp [setHttp, h, raiseForStatus, hc]
    · intro hc
      simp [setHttp, h, raiseForStatus, hc]

/-- C4 witness: with a 200 response whose body is the word success, the set
reports success exactly as the substring check does. -/
theorem c4_set_http_amended_witness :
    (setHttp envSuccess 8080 "hi").1 = Except.ok true ↔
      containsSubS "success" (pyLowerS "success") = true :=
  ((c4_set_http_amended envSuccess 8080 "hi" 200 "success").2.2 rfl).2 (by decide)

/-- C5 counterexample: a response with status 304 is not 2xx, yet the
HTTP-transport get does not signal failure there: it parses the body and
returns the data field, refuting the claim as stated. -/
theorem c5_get_http_counterexample :
    ¬ (200 ≤ 304 ∧ 304 < 300) ∧
      (getHttp envRedirect 8080).1 = Except.ok (some (JVal.str "hi")) :=
  ⟨by decide, rfl⟩

/-- C5 amended: the HTTP-transport get signals a failure whose message is
prefixed by the method-qualified text for every request exception and every
response with a 4xx or 5xx status; for every other response whose body
decodes to a JSON object, it returns the data field verbatim (empty string
included) when the status field equals success, and the non-error no-content
result `none` for any other status. -/
theorem c5_get_http_amended (env : ClipEnv) (p : Nat) (code : Nat) (body : String) :
    (env.httpGetResp = none →
      (getHttp env p).1 =
        Except.error ("HTTP GET failed: " ++ PyErr.render PyErr.requestExc)) ∧
    (env.httpGetResp = some (code, body) →
      (400 ≤ code ∧ code < 600 →
        (getHttp env p).1 =
          Except.error ("HTTP GET failed: " ++ PyErr.render (PyErr.httpError code))) ∧
      (¬ (400 ≤ code ∧ code < 600) →
        ∀ fields, env.jsonLoads body = Except.ok (JVal.obj fields) →
          (isSuccessStr (fields.lookup "status") = true →
            (getHttp env p).1 =
              Except.ok (some (jsonGetD fields "data" (JVal.str "")))) ∧
          (isSuccessStr (fields.lookup "status") = false →
            (getHttp env p).1 = Except.ok none))) := by
  refine ⟨?_, ?_⟩
  · intro h
    simp [getHttp, h]
  · intro h
    constructor
    · intro hc
      simp [getHttp, h, raiseForStatus, hc]
    · intro hc fields hjl
      constructor
      · intro hss
        simp [getHttp, h, raiseForStatus, hc, hjl, hss]
      · intro hss
        simp [getHttp, h, raiseForStatus, hc, hjl, hss]

/-- C5 witness: with a 200 response decoding to a success object, the get
returns the data field verbatim. -/
theorem c5_get_http_amended_witness :
    (getHttp envSuccess 8080).1 = Except.ok (some (JVal.str "hello")) := by
  have h := ((((c5_get_http_amended envSuccess 8080 200 "body").2 rfl).2 (by decide))
    [("status", JVal.str "success"), ("data", JVal.str "hello")] rfl).1 (by decide)
  exact h

end DroidrunPortal
